import Mathlib

/-!
Verification development for the mcp-fal image-generation pipeline.

The definitions below are a shallow embedding of the TypeScript sources:
`src/types.ts` (model constants, aspect ratios, error taxonomy,
`categorizeError`), `src/retry.ts` (`isRetryable`, `withRetry`,
`withTimeout`), and `src/providers/fal-image.ts` (`getImageInputType`,
`processReferenceImages`, `getModelId`, validation, download and numbering
of output paths, usage logging, and the catch-block error classifier).

Modelling conventions:
- JavaScript strings are Lean `String`s; `String.prototype.includes` is the
  executable substring test `strIncludes` (case-sensitive, as in JS);
  `toLowerCase` is modelled by `strToLower` (ASCII case folding, which
  covers every pattern the code compares against).
- Asynchronous calls are modelled by oracles: an attempt of the upstream
  call is an `AttemptOutcome` carrying its wall-clock duration and its
  settled result; `withTimeout` races such an outcome against a deadline.
- Fallible code returns `Except String`; thrown `Error` values are the
  carried message strings.
- Real wall-clock values (timestamps, measured durations) are not modelled;
  a usage record keeps the fields whose values the logic determines
  (model, success, error).
-/

/-- Executable prefix test on the underlying character lists
(models JS `String.prototype.startsWith`). -/
def strStarts (s pre : String) : Bool :=
  pre.data.isPrefixOf s.data

/-- Test `containsSub needle hay`: true iff `needle` occurs as a contiguous
sublist of `hay`. -/
def containsSub (needle : List Char) : List Char → Bool
  | [] => needle.isEmpty
  | c :: t => needle.isPrefixOf (c :: t) || containsSub needle t

/-- Models JS `String.prototype.includes` (case-sensitive substring test). -/
def strIncludes (s sub : String) : Bool :=
  containsSub sub.data s.data

/-- ASCII lowering of one character (the range JS `toLowerCase` and the
code's comparison patterns actually exercise). -/
def lowerChar (c : Char) : Char :=
  if 65 ≤ c.toNat ∧ c.toNat ≤ 90 then Char.ofNat (c.toNat + 32) else c

/-- Models JS `String.prototype.toLowerCase` on the relevant ASCII range. -/
def strToLower (s : String) : String :=
  ⟨s.data.map lowerChar⟩

-- ===========================================================================
-- src/types.ts : model constants
-- ===========================================================================

/-- The two friendly model names (`SUPPORTED_IMAGE_MODELS`). -/
inductive SupportedImageModel where
  | nanoBanana
  | nanoBananaPro
  deriving DecidableEq, Repr

/-- The string form of a model name as it appears in messages and records. -/
def modelName : SupportedImageModel → String
  | .nanoBanana => "nano-banana"
  | .nanoBananaPro => "nano-banana-pro"

def FAL_ID_NANO_BANANA : String := "fal-ai/nano-banana"
def FAL_ID_NANO_BANANA_PRO : String := "fal-ai/nano-banana-pro"
def FAL_ID_NANO_BANANA_EDIT : String := "fal-ai/nano-banana/edit"
def FAL_ID_NANO_BANANA_PRO_EDIT : String := "fal-ai/nano-banana-pro/edit"

/-- Constant `ASPECT_RATIOS` from src/types.ts. -/
def ASPECT_RATIOS : List String :=
  ["1:1", "2:3", "3:2", "3:4", "4:3", "4:5", "5:4", "9:16", "16:9", "21:9"]

/-- Constant `ASPECT_RATIOS_WITH_AUTO = ["auto", ...ASPECT_RATIOS]`. -/
def ASPECT_RATIOS_WITH_AUTO : List String :=
  "auto" :: ASPECT_RATIOS

/-- Ceilings `MAX_REFERENCE_IMAGES`: 3 for nano-banana, 14 for nano-banana-pro. -/
def MAX_REFERENCE_IMAGES : SupportedImageModel → Nat
  | .nanoBanana => 3
  | .nanoBananaPro => 14

-- ===========================================================================
-- src/types.ts : error taxonomy and categorizeError
-- ===========================================================================

/-- Taxonomy `ErrorCategory` from src/types.ts. -/
inductive ErrorCategory where
  | AUTH_ERROR
  | RATE_LIMIT
  | CONTENT_BLOCKED
  | SAFETY_BLOCK
  | TIMEOUT
  | API_ERROR
  | VALIDATION_ERROR
  deriving DecidableEq, Repr

/-- Error value `MCPError` (category, message, optional upstream status code). -/
structure MCPError where
  category : ErrorCategory
  message : String
  statusCode : Option Nat
  deriving DecidableEq, Repr

/-- Function `categorizeError` from src/types.ts, as a function of the failure's
message and the optional `status`/`statusCode` field found on the error
value.  Substring tests are case-sensitive, exactly as in the source. -/
def categorizeError (message : String) (status : Option Nat) : MCPError :=
  if status = some 401 || strIncludes message "API key" || strIncludes message "unauthorized" then
    ⟨.AUTH_ERROR, "Invalid or missing fal.ai API key", status⟩
  else if status = some 429 || strIncludes message "quota" || strIncludes message "rate" then
    ⟨.RATE_LIMIT, "fal.ai API rate limit or quota exceeded", status⟩
  else if strIncludes message "safety" || strIncludes message "blocked" then
    ⟨.SAFETY_BLOCK, "Content blocked by safety filter", status⟩
  else if status = some 422 || strIncludes message "422" || strIncludes message "invalid" then
    ⟨.VALIDATION_ERROR, message, status⟩
  else if strIncludes message "TIMEOUT" || strIncludes message "timed out" then
    ⟨.TIMEOUT, message, none⟩
  else
    ⟨.API_ERROR, message, status⟩

/-- The catch-block classifier of `FalImageProvider.generate`
(src/providers/fal-image.ts): maps the failure message to the `errorType`
string that is prefixed onto the outward-facing error. -/
def categorizeGenerate (errorMessage : String) : String :=
  if strIncludes errorMessage "API key" || strIncludes errorMessage "unauthorized"
      || strIncludes errorMessage "authentication" then
    "AUTH_ERROR"
  else if strIncludes errorMessage "quota" || strIncludes errorMessage "rate"
      || strIncludes errorMessage "429" || strIncludes errorMessage "too many requests" then
    "RATE_LIMIT"
  else if strIncludes errorMessage "safety" || strIncludes errorMessage "blocked"
      || strIncludes errorMessage "content policy" then
    "CONTENT_BLOCKED"
  else if strIncludes errorMessage "TIMEOUT" then
    "TIMEOUT"
  else if strIncludes errorMessage "Unprocessable Entity" || strIncludes errorMessage "422" then
    "INVALID_REQUEST"
  else
    "GENERATION_ERROR"

/-- First-match-wins evaluation of an ordered rule table
(list of (substring patterns, category) pairs) with a default category.
Written from the spec's description of the classifier as an ordered rule
table, to be compared against the conditional cascades in the source. -/
def ruleFirstMatch {β : Type} (rules : List (List String × β)) (dflt : β) (msg : String) : β :=
  match rules with
  | [] => dflt
  | (pats, cat) :: rest =>
    if pats.any (fun p => strIncludes msg p) then cat else ruleFirstMatch rest dflt msg

/-- The rule table actually implemented by the generate catch block. -/
def generateRules : List (List String × String) :=
  [ (["API key", "unauthorized", "authentication"], "AUTH_ERROR"),
    (["quota", "rate", "429", "too many requests"], "RATE_LIMIT"),
    (["safety", "blocked", "content policy"], "CONTENT_BLOCKED"),
    (["TIMEOUT"], "TIMEOUT"),
    (["Unprocessable Entity", "422"], "INVALID_REQUEST") ]

/-- The rule table actually implemented by `categorizeError` when no status
code is attached to the failure. -/
def categorizeErrorRules : List (List String × ErrorCategory) :=
  [ (["API key", "unauthorized"], .AUTH_ERROR),
    (["quota", "rate"], .RATE_LIMIT),
    (["safety", "blocked"], .SAFETY_BLOCK),
    (["422", "invalid"], .VALIDATION_ERROR),
    (["TIMEOUT", "timed out"], .TIMEOUT) ]

-- ===========================================================================
-- src/retry.ts : isRetryable, withRetry, withTimeout
-- ===========================================================================

/-- Options `RetryOptions` from src/retry.ts (all fields required, as in the merged
`opts` value). -/
structure RetryOptions where
  maxRetries : Nat
  initialDelayMs : Nat
  maxDelayMs : Nat
  backoffMultiplier : Nat
  retryableErrors : List String
  deriving Repr

/-- Constant `DEFAULT_RETRY_OPTIONS` from src/retry.ts. -/
def DEFAULT_RETRY_OPTIONS : RetryOptions :=
  ⟨3, 1000, 30000, 2,
    ["RATE_LIMIT", "429", "503", "502", "ECONNRESET", "ETIMEDOUT", "ENOTFOUND",
      "temporarily unavailable", "too many requests"]⟩

/-- Function `isRetryable` from src/retry.ts: case-insensitive substring match of the
failure message against the retryable patterns. -/
def isRetryable (message : String) (retryableErrors : List String) : Bool :=
  retryableErrors.any (fun pattern => strIncludes (strToLower message) (strToLower pattern))

/-- One settled attempt of an asynchronous operation: how long it ran and
what it produced (`.ok` resolution or `.error` rejection message). -/
structure AttemptOutcome (α : Type) where
  durationMs : Nat
  result : Except String α

/-- Function `withTimeout` from src/retry.ts: the attempt is raced against a timer of
`timeoutMs`; if the attempt settles strictly earlier it wins, otherwise the
race rejects at `timeoutMs` with the TIMEOUT message. -/
def withTimeout {α : Type} (a : AttemptOutcome α) (timeoutMs : Nat) : AttemptOutcome α :=
  if a.durationMs < timeoutMs then a
  else ⟨timeoutMs, .error ("TIMEOUT: Operation timed out after " ++ toString timeoutMs ++ "ms")⟩

/-- Observable trace of one `withRetry` run: the final result, how many
attempts were executed, the backoff sleeps in order, and the total time
spent inside attempts (sleeps excluded). -/
structure RetryTrace (α : Type) where
  result : Except String α
  attemptsMade : Nat
  sleeps : List Nat
  attemptMs : Nat

/-- The loop body of `withRetry` (src/retry.ts).  `remaining` counts the
retries still allowed (`maxRetries - attempt`); `delayMs` is the mutable
`delay` variable; `accSleeps` (reversed) and `accMs` accumulate the sleeps
performed and the attempt time spent so far. -/
def withRetryGo {α : Type} (fn : Nat → AttemptOutcome α) (retryableErrors : List String)
    (maxDelayMs backoffMultiplier : Nat) :
    Nat → Nat → Nat → List Nat → Nat → RetryTrace α
  | 0, attempt, _, accSleeps, accMs =>
    -- last allowed attempt: any failure is rethrown (attempt === maxRetries)
    let a := fn attempt
    match a.result with
    | .ok v => ⟨.ok v, attempt + 1, accSleeps.reverse, accMs + a.durationMs⟩
    | .error msg => ⟨.error msg, attempt + 1, accSleeps.reverse, accMs + a.durationMs⟩
  | r + 1, attempt, delayMs, accSleeps, accMs =>
    let a := fn attempt
    match a.result with
    | .ok v => ⟨.ok v, attempt + 1, accSleeps.reverse, accMs + a.durationMs⟩
    | .error msg =>
      if isRetryable msg retryableErrors then
        withRetryGo fn retryableErrors maxDelayMs backoffMultiplier r (attempt + 1)
          (min (delayMs * backoffMultiplier) maxDelayMs)
          (delayMs :: accSleeps) (accMs + a.durationMs)
      else
        ⟨.error msg, attempt + 1, accSleeps.reverse, accMs + a.durationMs⟩

/-- Function `withRetry` from src/retry.ts over a sequence of attempt outcomes
(`fn k` is what the `k`-th call of the thunk does). -/
def withRetry {α : Type} (fn : Nat → AttemptOutcome α) (opts : RetryOptions) : RetryTrace α :=
  withRetryGo fn opts.retryableErrors opts.maxDelayMs opts.backoffMultiplier
    opts.maxRetries 0 opts.initialDelayMs [] 0

/-- The options `FalImageProvider.generate` passes to `withRetry`: the
object spread `{...DEFAULT_RETRY_OPTIONS, ...options}` replaces
`maxRetries` and the whole `retryableErrors` array. -/
def generateRetryOptions : RetryOptions :=
  ⟨2, 1000, 30000, 2, ["RATE_LIMIT", "429", "503", "502", "ECONNRESET", "ETIMEDOUT"]⟩

/-- The value of the `delay` variable before the `(k+1)`-th sleep:
`initialDelayMs`, then repeatedly `min (delay * mult) maxDelayMs`. -/
def delayAt (init mult cap : Nat) : Nat → Nat
  | 0 => init
  | k + 1 => min (delayAt init mult cap k * mult) cap

/-- Predicate `SleepsFrom init mult cap j l`: the list `l` is a run of consecutive
backoff delays starting at index `j` of the delay sequence. -/
def SleepsFrom (init mult cap : Nat) : Nat → List Nat → Prop
  | _, [] => True
  | j, d :: rest => d = delayAt init mult cap j ∧ SleepsFrom init mult cap (j + 1) rest

/-- Total milliseconds slept in a retry trace. -/
def sleepTotal {α : Type} (t : RetryTrace α) : Nat :=
  t.sleeps.foldl (fun acc d => acc + d) 0

-- ===========================================================================
-- src/providers/fal-image.ts : constants and input classification
-- ===========================================================================

/-- Constant `DEFAULT_TIMEOUT_MS` (3 minutes) from src/providers/fal-image.ts. -/
def DEFAULT_TIMEOUT_MS : Nat := 180000

/-- Constant `UPLOAD_TIMEOUT_MS` (30 seconds) from src/providers/fal-image.ts. -/
def UPLOAD_TIMEOUT_MS : Nat := 30000

/-- The three classes of a reference-image input string. -/
inductive ImageInputType where
  | url
  | data_url
  | local_file
  deriving DecidableEq, Repr

/-- Function `getImageInputType` from src/providers/fal-image.ts. -/
def getImageInputType (input : String) : ImageInputType :=
  if strStarts input "data:" then .data_url
  else if strStarts input "http://" || strStarts input "https://" then .url
  else .local_file

/-- Method `FalImageProvider.getModelId`: endpoint selection from the model and
the presence of reference images. -/
def getModelId (model : SupportedImageModel) (hasReferenceImages : Bool) : String :=
  if hasReferenceImages then
    match model with
    | .nanoBananaPro => FAL_ID_NANO_BANANA_PRO_EDIT
    | .nanoBanana => FAL_ID_NANO_BANANA_EDIT
  else
    match model with
    | .nanoBananaPro => FAL_ID_NANO_BANANA_PRO
    | .nanoBanana => FAL_ID_NANO_BANANA

-- ===========================================================================
-- src/providers/fal-image.ts : data-URL parsing and reference processing
-- ===========================================================================

/-- A character `.` may match in the data-URL regex: anything but the four
JS line terminators. -/
def isDataChar (c : Char) : Bool :=
  c != '\n' && c != '\r' && c.toNat != 0x2028 && c.toNat != 0x2029

/-- Whether `dataUrl` matches the regex of `parseDataUrl`:
`^data:([^;]+);base64,(.+)$`.  The `[^;]+` group cannot contain `;`, so the
split point is the first `;` after the `data:` prefix. -/
def parseDataUrlOk (dataUrl : String) : Bool :=
  let cs := dataUrl.data
  ("data:".data).isPrefixOf cs &&
    (let rest := cs.drop 5
     let mime := rest.takeWhile (fun c => c != ';')
     let after := rest.drop mime.length
     (!mime.isEmpty) && (";base64,".data).isPrefixOf after &&
       (let payload := after.drop 8
        (!payload.isEmpty) && payload.all isDataChar))

/-- Function `parseDataUrl` from src/providers/fal-image.ts, reduced to its
success/failure behaviour (the decoded buffer and content type are consumed
only by the upload call, which is an oracle here). -/
def parseDataUrl (dataUrl : String) : Except String Unit :=
  if parseDataUrlOk dataUrl then .ok ()
  else .error "Invalid data URL format. Expected: data:<mime>;base64,<data>"

/-- Environment for `processReferenceImages`: the filesystem probe
(`existsSync`) and the storage-upload primitive.  `upload i` is the settled
outcome of the `fal.storage.upload` call made while processing input `i`;
blob construction and MIME inference only shape the uploaded payload and
are absorbed into the oracle. -/
structure RefEnv where
  fileExists : String → Bool
  upload : Nat → AttemptOutcome String

/-- The loop body of `FalImageProvider.processReferenceImages`.  For each
input (0-based index `i`) it yields the URL pushed onto `processedUrls`
together with a flag recording whether the upload primitive was invoked for
that input; the first failure aborts, wrapped with the 1-based index. -/
def processRefsAux (env : RefEnv) : List String → Nat → Except String (List (String × Bool))
  | [], _ => .ok []
  | image :: rest, i =>
    let step : Except String (String × Bool) :=
      match getImageInputType image with
      | .url => .ok (image, false)
      | .data_url =>
        match parseDataUrl image with
        | .error e => .error e
        | .ok _ =>
          match (withTimeout (env.upload i) UPLOAD_TIMEOUT_MS).result with
          | .error e => .error e
          | .ok u => .ok (u, true)
      | .local_file =>
        if env.fileExists image then
          match (withTimeout (env.upload i) UPLOAD_TIMEOUT_MS).result with
          | .error e => .error e
          | .ok u => .ok (u, true)
        else .error ("Reference image file not found: " ++ image)
    match step with
    | .error e => .error ("Failed to process reference image " ++ toString (i + 1) ++ ": " ++ e)
    | .ok p =>
      match processRefsAux env rest (i + 1) with
      | .error e => .error e
      | .ok ps => .ok (p :: ps)

/-- Method `FalImageProvider.processReferenceImages`. -/
def processReferenceImages (env : RefEnv) (referenceImages : List String) :
    Except String (List (String × Bool)) :=
  if referenceImages.isEmpty then .ok []
  else processRefsAux env referenceImages 0

-- ===========================================================================
-- src/providers/fal-image.ts : response shape and output paths
-- ===========================================================================

/-- Response item `FalImage`: the `url` is the only field the pipeline logic reads
(the optional metadata fields are only logged). -/
structure FalImage where
  url : String
  deriving DecidableEq, Repr

/-- Response shape `FalGenerateResponse`; `images` is `none` when absent at runtime. -/
structure FalGenerateResponse where
  images : Option (List FalImage)
  description : Option String
  deriving DecidableEq, Repr

/-- Split a character list at its last `.`: `some (before, after)` with
`cs = before ++ '.' :: after` and `after` dot-free; `none` if no dot. -/
def splitLastDot (cs : List Char) : Option (List Char × List Char) :=
  let revAfter := cs.reverse.takeWhile (fun c => c != '.')
  match cs.reverse.drop revAfter.length with
  | [] => none
  | _ :: beforeRev => some (beforeRev.reverse, revAfter.reverse)

/-- Rewrite `outputPath.replace(/(\.[^.]+)$/, "_<n>$1")`: the regex matches exactly
when the string has a `.` with at least one character after its last `.`;
the replacement inserts `_<n>` before that final extension, and a
non-matching path is returned unchanged. -/
def numberedSiblingPath (outputPath : String) (n : Nat) : String :=
  match splitLastDot outputPath.data with
  | some (before, after) =>
    if after.isEmpty then outputPath
    else String.mk before ++ "_" ++ toString n ++ "." ++ String.mk after
  | none => outputPath

/-- Whether the extension regex `(\.[^.]+)$` matches `s`. -/
def hasDotExt (s : String) : Bool :=
  match splitLastDot s.data with
  | some (_, after) => !after.isEmpty
  | none => false

-- ===========================================================================
-- src/providers/fal-image.ts : generate
-- ===========================================================================

/-- Options `ImageGenerateOptions` after the destructuring defaults of `generate`
(`model = "nano-banana"`, `referenceImages = []`, `outputFormat = "png"`,
`resolution = "1K"`, `numImages = 1`, `enableWebSearch = false` are applied
by the caller of this model).  `aspectRat` models the optional
`aspectRatio` field, `none` standing for `undefined`. -/
structure ImageGenerateOptions where
  prompt : String
  outputPath : String
  model : SupportedImageModel
  referenceImages : List String
  aspectRat : Option String
  outputFormat : String
  resolution : String
  numImages : Nat
  enableWebSearch : Bool

/-- Result `GenerateResult` (the measured `usage.durationMs` is wall-clock time and
is not modelled). -/
structure GenerateResult where
  imagePath : String
  model : SupportedImageModel
  deriving DecidableEq, Repr

/-- One entry of the append-only usage log.  `timestamp`, `durationMs` and
the constant `type: "image"` are determined by wall-clock time or fixed and
are not modelled. -/
structure UsageRecord where
  model : String
  success : Bool
  error : Option String
  deriving DecidableEq, Repr

/-- Message of the `aspectRatio === "auto"` validation failure. -/
def autoAspectError : String :=
  "Aspect ratio \"auto\" is only valid when using reference_images. For text-to-image, use: "
    ++ String.intercalate ", " ASPECT_RATIOS

/-- Message of the unknown-aspect-ratio validation failure. -/
def invalidAspectError (ar : String) : String :=
  "Invalid aspect ratio \"" ++ ar ++ "\". Valid options: "
    ++ String.intercalate ", " ASPECT_RATIOS_WITH_AUTO

/-- Message of the reference-image-count validation failure. -/
def maxRefError (model : SupportedImageModel) : String :=
  "Maximum " ++ toString (MAX_REFERENCE_IMAGES model) ++ " reference images allowed for "
    ++ modelName model

/-- Message of the resolution validation failure. -/
def resolutionError : String :=
  "Only nano-banana-pro supports 2K and 4K resolution"

/-- The aspect-ratio validation stage of `generate` (the body of
`if (aspectRatio) { ... }`; a JS-falsy empty string skips the stage). -/
def aspectCheck (o : ImageGenerateOptions) : Option String :=
  match o.aspectRat with
  | none => none
  | some ar =>
    if ar = "" then none
    else if ar = "auto" && o.referenceImages.isEmpty then some autoAspectError
    else if !(ASPECT_RATIOS_WITH_AUTO.contains ar) then some (invalidAspectError ar)
    else none

/-- The full validation prologue of `generate`, run before the `try` block
and before any network activity: aspect ratio, then reference-image count,
then resolution; the first violation short-circuits. -/
def validateOptions (o : ImageGenerateOptions) : Option String :=
  match aspectCheck o with
  | some e => some e
  | none =>
    if MAX_REFERENCE_IMAGES o.model < o.referenceImages.length then
      some (maxRefError o.model)
    else if o.model ≠ .nanoBananaPro && o.resolution ≠ "1K" then
      some resolutionError
    else none

/-- Environment of one `generate` call: the reference-image environment,
the upstream `fal.subscribe` behaviour (`attempts modelId k` is the settled
outcome of the `k`-th attempt against endpoint `modelId`), and the HTTP
download oracle (`fetch url` is the downloaded byte content, or the message
of the failure thrown by `downloadAndSave`). -/
structure GenEnv where
  refEnv : RefEnv
  attempts : String → Nat → AttemptOutcome FalGenerateResponse
  fetch : String → Except String (List Nat)

/-- Sequential `downloadAndSave` calls over `(url, path)` pairs: each
successful fetch appends a file write `(path, bytes)`; the first failure
stops the loop, keeping the writes already performed. -/
def downloadSeq (fetch : String → Except String (List Nat)) :
    List (String × String) → Except String Unit × List (String × List Nat)
  | [] => (.ok (), [])
  | (u, p) :: rest =>
    match fetch u with
    | .error e => (.error e, [])
    | .ok bytes =>
      let (r, ws) := downloadSeq fetch rest
      (r, (p, bytes) :: ws)

/-- The body of the `try` block of `generate`: reference processing,
retried upstream call (each attempt raced against the 180s timeout),
response validation, then download of image 0 to `outputPath` and — when
`numImages > 1` — of images `1..` to the numbered sibling paths.  Returns
the result together with the file writes performed. -/
def runGenerate (env : GenEnv) (o : ImageGenerateOptions) :
    Except String GenerateResult × List (String × List Nat) :=
  let hasReferenceImages := !o.referenceImages.isEmpty
  let modelId := getModelId o.model hasReferenceImages
  match (if hasReferenceImages then processReferenceImages env.refEnv o.referenceImages
         else .ok []) with
  | .error e => (.error e, [])
  | .ok _processed =>
    let trace := withRetry (fun k => withTimeout (env.attempts modelId k) DEFAULT_TIMEOUT_MS)
      generateRetryOptions
    match trace.result with
    | .error e => (.error e, [])
    | .ok response =>
      match response.images with
      | none => (.error "No image data found in response", [])
      | some [] => (.error "No image data found in response", [])
      | some (img0 :: rest) =>
        let plan := (img0.url, o.outputPath) ::
          (if 1 < o.numImages then
            rest.enum.map (fun q => ((q.2).url, numberedSiblingPath o.outputPath (q.1 + 2)))
          else [])
        match downloadSeq env.fetch plan with
        | (.error e, ws) => (.error e, ws)
        | (.ok _, ws) => (.ok ⟨o.outputPath, o.model⟩, ws)

/-- Everything observable about one `generate` call: its result, the file
writes it performed, and the usage records it logged. -/
structure GenOutcome where
  result : Except String GenerateResult
  writes : List (String × List Nat)
  usage : List UsageRecord
  deriving Repr

/-- Method `FalImageProvider.generate`: validation raises before the `try` block
(so a validation failure logs nothing); inside the `try`, success logs one
successful usage record, and the `catch` classifies the failure, logs one
failing usage record, and rethrows the category-prefixed message. -/
def generate (env : GenEnv) (o : ImageGenerateOptions) : GenOutcome :=
  match validateOptions o with
  | some e => ⟨.error e, [], []⟩
  | none =>
    match runGenerate env o with
    | (.ok res, ws) => ⟨.ok res, ws, [⟨modelName o.model, true, none⟩]⟩
    | (.error e, ws) =>
      ⟨.error (categorizeGenerate e ++ ": " ++ e), ws,
        [⟨modelName o.model, false, some (categorizeGenerate e ++ ": " ++ e)⟩]⟩

/-- The content a path holds after a list of writes is applied in order
(last write wins); `none` when the path was never written. -/
def finalFileContents (writes : List (String × List Nat)) (q : String) : Option (List Nat) :=
  writes.foldl (fun acc w => if w.1 = q then some w.2 else acc) none

/-- Whether an `Except` value is a success. -/
def exceptIsOk {ε α : Type} : Except ε α → Bool
  | .ok _ => true
  | .error _ => false

-- ===========================================================================
-- Helper lemmas
-- ===========================================================================

/-- The generate catch block computes exactly the first match of its rule
table. -/
theorem categorizeGenerate_eq_table (msg : String) :
    categorizeGenerate msg = ruleFirstMatch generateRules "GENERATION_ERROR" msg := by
  simp [categorizeGenerate, ruleFirstMatch, generateRules, List.any_cons, List.any_nil,
    Bool.or_assoc, Bool.or_false]

/-- Classifier `categorizeError` on a status-less failure computes exactly the first
match of its rule table. -/
theorem categorizeError_eq_table (msg : String) :
    (categorizeError msg none).category =
      ruleFirstMatch categorizeErrorRules ErrorCategory.API_ERROR msg := by
  simp only [categorizeError, categorizeErrorRules, ruleFirstMatch, List.any_cons, List.any_nil,
    Bool.or_assoc, Bool.or_false]
  repeat' split <;> simp_all

/-- Accumulator factorization for the retry loop: the accumulators only
prepend to the sleeps and add to the attempt time of the accumulator-free
run. -/
theorem withRetryGo_acc {α : Type} (fn : Nat → AttemptOutcome α) (pats : List String)
    (cap mult : Nat) :
    ∀ (remaining attempt delayMs : Nat) (accSleeps : List Nat) (accMs : Nat),
    withRetryGo fn pats cap mult remaining attempt delayMs accSleeps accMs =
      ⟨(withRetryGo fn pats cap mult remaining attempt delayMs [] 0).result,
       (withRetryGo fn pats cap mult remaining attempt delayMs [] 0).attemptsMade,
       accSleeps.reverse ++ (withRetryGo fn pats cap mult remaining attempt delayMs [] 0).sleeps,
       accMs + (withRetryGo fn pats cap mult remaining attempt delayMs [] 0).attemptMs⟩ := by
  intro remaining
  induction remaining with
  | zero =>
    intro attempt delayMs accSleeps accMs
    simp only [withRetryGo]
    rcases (fn attempt).result with msg | v <;> simp
  | succ r ih =>
    intro attempt delayMs accSleeps accMs
    simp only [withRetryGo]
    rcases (fn attempt).result with msg | v
    · by_cases hr : isRetryable msg pats
      · simp only [hr, if_true]
        rw [ih (attempt + 1) (min (delayMs * mult) cap) (delayMs :: accSleeps),
          ih (attempt + 1) (min (delayMs * mult) cap) [delayMs]]
        simp [List.append_assoc, Nat.add_assoc]
      · simp [hr]
    · simp

/-- Every run makes at least one attempt past the starting count. -/
theorem withRetryGo_attempt_lower {α : Type} (fn : Nat → AttemptOutcome α) (pats : List String)
    (cap mult : Nat) :
    ∀ (remaining attempt delayMs : Nat) (accSleeps : List Nat) (accMs : Nat),
    attempt + 1 ≤
      (withRetryGo fn pats cap mult remaining attempt delayMs accSleeps accMs).attemptsMade := by
  intro remaining
  induction remaining with
  | zero =>
    intro attempt delayMs accSleeps accMs
    simp only [withRetryGo]
    rcases (fn attempt).result with msg | v <;> simp
  | succ r ih =>
    intro attempt delayMs accSleeps accMs
    simp only [withRetryGo]
    rcases (fn attempt).result with msg | v
    · by_cases hr : isRetryable msg pats
      · simp only [hr, if_true]
        calc attempt + 1 ≤ (attempt + 1) + 1 := by omega
          _ ≤ _ := ih (attempt + 1) _ _ _
      · simp [hr]
    · simp

/-- The attempt count never exceeds the starting count plus the remaining
budget plus one. -/
theorem withRetryGo_attempt_upper {α : Type} (fn : Nat → AttemptOutcome α) (pats : List String)
    (cap mult : Nat) :
    ∀ (remaining attempt delayMs : Nat) (accSleeps : List Nat) (accMs : Nat),
    (withRetryGo fn pats cap mult remaining attempt delayMs accSleeps accMs).attemptsMade ≤
      attempt + remaining + 1 := by
  intro remaining
  induction remaining with
  | zero =>
    intro attempt delayMs accSleeps accMs
    simp only [withRetryGo]
    rcases (fn attempt).result with msg | v <;> simp
  | succ r ih =>
    intro attempt delayMs accSleeps accMs
    simp only [withRetryGo]
    rcases (fn attempt).result with msg | v
    · by_cases hr : isRetryable msg pats
      · simp only [hr, if_true]
        calc (withRetryGo fn pats cap mult r (attempt + 1) _ _ _).attemptsMade
            ≤ (attempt + 1) + r + 1 := ih (attempt + 1) _ _ _
          _ ≤ attempt + (r + 1) + 1 := by omega
      · simp [hr]; try omega
    · simp; try omega

/-- Time spent in attempts is bounded by the per-attempt bound times the
number of attempts beyond the starting count. -/
theorem withRetryGo_attemptMs_le {α : Type} (fn : Nat → AttemptOutcome α) (pats : List String)
    (cap mult T : Nat) (hT : ∀ k, (fn k).durationMs ≤ T) :
    ∀ (remaining attempt delayMs : Nat) (accSleeps : List Nat) (accMs : Nat),
    (withRetryGo fn pats cap mult remaining attempt delayMs accSleeps accMs).attemptMs ≤
      accMs +
        ((withRetryGo fn pats cap mult remaining attempt delayMs accSleeps accMs).attemptsMade
          - attempt) * T := by
  intro remaining
  induction remaining with
  | zero =>
    intro attempt delayMs accSleeps accMs
    simp only [withRetryGo]
    rcases (fn attempt).result with msg | v <;> simp <;>
      · have := hT attempt; omega
  | succ r ih =>
    intro attempt delayMs accSleeps accMs
    simp only [withRetryGo]
    rcases (fn attempt).result with msg | v
    case error =>
      by_cases hr : isRetryable msg pats
      · simp only [hr, if_true]
        have h1 := ih (attempt + 1) (min (delayMs * mult) cap) (delayMs :: accSleeps)
          (accMs + (fn attempt).durationMs)
        have h2 := withRetryGo_attempt_lower fn pats cap mult r (attempt + 1)
          (min (delayMs * mult) cap) (delayMs :: accSleeps) (accMs + (fn attempt).durationMs)
        have h3 := hT attempt
        set t := withRetryGo fn pats cap mult r (attempt + 1) (min (delayMs * mult) cap)
          (delayMs :: accSleeps) (accMs + (fn attempt).durationMs)
        have : (t.attemptsMade - (attempt + 1)) * T + T ≤ (t.attemptsMade - attempt) * T := by
          have hexp : t.attemptsMade - attempt = (t.attemptsMade - (attempt + 1)) + 1 := by omega
          rw [hexp, Nat.succ_mul]
        omega
      · simp [hr]; have := hT attempt; omega
    case ok => simp; have := hT attempt; omega

/-- A first attempt that resolves makes the retry wrapper return at once:
one attempt, no sleeps. -/
theorem withRetry_first_ok {α : Type} (fn : Nat → AttemptOutcome α) (opts : RetryOptions)
    (v : α) (d : Nat) (h : fn 0 = ⟨d, .ok v⟩) :
    withRetry fn opts = ⟨.ok v, 1, [], d⟩ := by
  unfold withRetry
  cases opts.maxRetries with
  | zero =>
    simp only [withRetryGo]
    rw [h]
    simp
  | succ r =>
    simp only [withRetryGo]
    rw [h]
    simp

/-- Sleeps happen between attempts only: the number of attempts is always
one more than the number of sleeps. -/
theorem withRetryGo_attempts_eq_sleeps {α : Type} (fn : Nat → AttemptOutcome α)
    (pats : List String) (cap mult : Nat) :
    ∀ (remaining attempt delayMs : Nat) (accSleeps : List Nat) (accMs : Nat),
    attempt = accSleeps.length →
    (withRetryGo fn pats cap mult remaining attempt delayMs accSleeps accMs).attemptsMade =
      (withRetryGo fn pats cap mult remaining attempt delayMs accSleeps accMs).sleeps.length
        + 1 := by
  intro remaining
  induction remaining with
  | zero =>
    intro attempt delayMs accSleeps accMs ha
    simp only [withRetryGo]
    rcases (fn attempt).result with msg | v <;> simp [ha]
  | succ r ih =>
    intro attempt delayMs accSleeps accMs ha
    simp only [withRetryGo]
    rcases (fn attempt).result with msg | v
    · by_cases hr : isRetryable msg pats
      · simp only [hr, if_true]
        exact ih (attempt + 1) _ (delayMs :: accSleeps) _ (by simp [ha])
      · simp [hr, ha]
    · simp [ha]

/-- The delay variable follows `min (init * mult^k) cap` for the concrete
doubling policy. -/
theorem delayAt_closed_form (k : Nat) :
    delayAt 1000 2 30000 k = min (1000 * 2 ^ k) 30000 := by
  induction k with
  | zero => simp [delayAt]
  | succ k ih =>
    rw [delayAt, ih, pow_succ]
    have h2 : 1000 * (2 ^ k * 2) = 1000 * 2 ^ k * 2 := by ring
    rw [h2]
    generalize 1000 * 2 ^ k = x
    omega

/-- The sleeps of a retry run starting at delay index `j` are consecutive
values of the backoff delay sequence. -/
theorem withRetryGo_sleepsFrom {α : Type} (fn : Nat → AttemptOutcome α) (pats : List String)
    (init mult cap : Nat) :
    ∀ (remaining attempt j : Nat),
    SleepsFrom init mult cap j
      ((withRetryGo fn pats cap mult remaining attempt (delayAt init mult cap j) [] 0).sleeps) := by
  intro remaining
  induction remaining with
  | zero =>
    intro attempt j
    simp only [withRetryGo]
    rcases (fn attempt).result with msg | v <;> simp [SleepsFrom]
  | succ r ih =>
    intro attempt j
    simp only [withRetryGo]
    rcases (fn attempt).result with msg | v
    · by_cases hr : isRetryable msg pats
      · simp only [hr, if_true]
        have hd : min (delayAt init mult cap j * mult) cap = delayAt init mult cap (j + 1) := by
          simp [delayAt]
        rw [hd, withRetryGo_acc]
        simp only [List.reverse_cons, List.reverse_nil, List.nil_append, List.singleton_append]
        exact ⟨rfl, ih (attempt + 1) (j + 1)⟩
      · simp [hr, SleepsFrom]
    · simp [SleepsFrom]

/-- Reference processing is index-stable: a successful run yields one
output per input, in order, and an input classified as a URL surfaces
unchanged at its own index with no upload performed for it. -/
theorem processRefsAux_spec (env : RefEnv) :
    ∀ (l : List String) (i : Nat) (ps : List (String × Bool)),
    processRefsAux env l i = .ok ps →
    ps.length = l.length ∧
      ∀ (j : Nat) (x : String), l[j]? = some x → getImageInputType x = .url →
        ps[j]? = some (x, false) := by
  intro l
  induction l with
  | nil =>
    intro i ps h
    simp only [processRefsAux] at h
    cases h
    simp
  | cons image rest ih =>
    intro i ps h
    simp only [processRefsAux] at h
    rcases hstep : (match getImageInputType image with
      | .url => (.ok (image, false) : Except String (String × Bool))
      | .data_url =>
        match parseDataUrl image with
        | .error e => .error e
        | .ok _ =>
          match (withTimeout (env.upload i) UPLOAD_TIMEOUT_MS).result with
          | .error e => .error e
          | .ok u => .ok (u, true)
      | .local_file =>
        if env.fileExists image then
          match (withTimeout (env.upload i) UPLOAD_TIMEOUT_MS).result with
          | .error e => .error e
          | .ok u => .ok (u, true)
        else .error ("Reference image file not found: " ++ image)) with e | p
    · rw [hstep] at h
      simp at h
    · rw [hstep] at h
      rcases hrest : processRefsAux env rest (i + 1) with e' | ps'
      · rw [hrest] at h; simp at h
      · rw [hrest] at h
        simp only at h
        cases h
        rcases ih (i + 1) ps' hrest with ⟨hlen, hidx⟩
        refine ⟨by simp [hlen], ?_⟩
        intro j x hj hurl
        cases j with
        | zero =>
          simp at hj
          subst hj
          rw [hurl] at hstep
          simp at hstep
          simp [hstep]
        | succ j' =>
          simp only [List.getElem?_cons_succ] at hj ⊢
          exact hidx j' x hj hurl

/-- Downloading a list of URL/path pairs whose fetches all succeed writes
each path in order with the fetched bytes. -/
theorem downloadSeq_all_ok (f : String → Except String (List Nat)) :
    ∀ (pairs : List (String × String)) (g : String → List Nat),
    (∀ pr ∈ pairs, f pr.1 = .ok (g pr.1)) →
    downloadSeq f pairs = (.ok (), pairs.map (fun pr => (pr.2, g pr.1))) := by
  intro pairs
  induction pairs with
  | nil => intro g _; simp [downloadSeq]
  | cons pr rest ih =>
    intro g hg
    have h1 : f pr.1 = .ok (g pr.1) := hg pr (by simp)
    obtain ⟨u, p⟩ := pr
    simp only [downloadSeq, h1]
    rw [ih g (fun q hq => hg q (by simp [hq]))]
    simp

/-- Mapping a function that ignores the index over an enumerated list is
mapping over the list itself. -/
theorem enumFrom_map_snd {α β : Type} (g : α → β) :
    ∀ (j : Nat) (l : List α), (List.enumFrom j l).map (fun q => g q.2) = l.map g := by
  intro j l
  induction l generalizing j with
  | nil => simp
  | cons a t ih => simp [List.enumFrom, ih]

/-- Writing a sequence of contents to one fixed path leaves the last
content in the file. -/
theorem finalFileContents_const (p : String) :
    ∀ (bs : List (List Nat)),
    finalFileContents (bs.map (fun b => (p, b))) p = bs.getLast? := by
  have key : ∀ (bs : List (List Nat)) (a : Option (List Nat)),
      (bs.map (fun b => (p, b))).foldl (fun acc w => if w.1 = p then some w.2 else acc) a =
        match bs.getLast? with
        | some b => some b
        | none => a := by
    intro bs
    induction bs with
    | nil => intro a; simp
    | cons b bs' ih =>
      intro a
      simp only [List.map_cons, List.foldl_cons]
      rw [if_pos trivial, ih (some b)]
      cases bs' with
      | nil => simp
      | cons c cs =>
        obtain ⟨b2, hb2⟩ := Option.isSome_iff_exists.mp
          (List.getLast?_isSome.mpr (by simp : (c :: cs) ≠ []))
        simp [hb2]
  intro bs
  rw [finalFileContents, key bs none]
  cases h : bs.getLast? <;> simp

/-- A path the extension regex does not match is left unchanged by the
numbering rewrite. -/
theorem numberedSiblingPath_noExt (p : String) (h : hasDotExt p = false) (n : Nat) :
    numberedSiblingPath p n = p := by
  unfold numberedSiblingPath
  unfold hasDotExt at h
  rcases hs : splitLastDot p.data with _ | ⟨before, after⟩
  · rfl
  · rw [hs] at h
    simp at h
    simp [h]

/-- A non-retryable failure on the first attempt propagates unchanged:
one attempt, no sleeps. -/
theorem withRetry_first_error {α : Type} (fn : Nat → AttemptOutcome α) (opts : RetryOptions)
    (msg : String) (d : Nat) (h : fn 0 = ⟨d, .error msg⟩)
    (hnr : isRetryable msg opts.retryableErrors = false) :
    withRetry fn opts = ⟨.error msg, 1, [], d⟩ := by
  unfold withRetry
  cases opts.maxRetries with
  | zero =>
    simp only [withRetryGo]
    rw [h]
    simp
  | succ r =>
    simp only [withRetryGo]
    rw [h]
    simp [hnr]

/-- A retryable failure on the first attempt triggers a second attempt
whenever any retry budget remains. -/
theorem withRetry_first_error_retried {α : Type} (fn : Nat → AttemptOutcome α)
    (opts : RetryOptions) (msg : String) (d : Nat) (h : fn 0 = ⟨d, .error msg⟩)
    (hr : isRetryable msg opts.retryableErrors = true) (hm : 1 ≤ opts.maxRetries) :
    2 ≤ (withRetry fn opts).attemptsMade := by
  unfold withRetry
  cases hmr : opts.maxRetries with
  | zero => omega
  | succ r =>
    simp only [withRetryGo]
    rw [h]
    simp only [hr, if_true]
    exact withRetryGo_attempt_lower fn opts.retryableErrors opts.maxDelayMs
      opts.backoffMultiplier r 1 _ _ _

-- ===========================================================================
-- Claim theorems
-- ===========================================================================

/-- C9: reference-image input classification is a pure function of the
string's prefix: `data:` inputs are embedded data regardless of the rest;
otherwise `http://`/`https://` inputs are remote URLs; everything else is a
local file. -/
theorem c9_input_classification (s : String) :
    (strStarts s "data:" = true → getImageInputType s = .data_url) ∧
    (strStarts s "data:" = false →
      (strStarts s "http://" || strStarts s "https://") = true →
        getImageInputType s = .url) ∧
    (strStarts s "data:" = false →
      (strStarts s "http://" || strStarts s "https://") = false →
        getImageInputType s = .local_file) :=
  ⟨fun h1 => by simp [getImageInputType, h1],
   fun h1 h2 => by simp [getImageInputType, h1, h2],
   fun h1 h2 => by simp [getImageInputType, h1, h2]⟩

/-- Witness for C9 at concrete inputs of the three classes. -/
theorem c9_input_witness :
    getImageInputType "data:image/png;base64,AA" = ImageInputType.data_url ∧
    getImageInputType "https://example.com/a.png" = ImageInputType.url ∧
    getImageInputType "http://example.com/a.png" = ImageInputType.url ∧
    getImageInputType "photos/cat.png" = ImageInputType.local_file :=
  ⟨(c9_input_classification "data:image/png;base64,AA").1 (by decide),
   (c9_input_classification "https://example.com/a.png").2.1 (by decide) (by decide),
   (c9_input_classification "http://example.com/a.png").2.1 (by decide) (by decide),
   (c9_input_classification "photos/cat.png").2.2 (by decide) (by decide)⟩

/-- C4 counterexample: the classifiers do not implement the claimed rule
table.  `categorizeError` (case-sensitive, no "429" pattern) sends
"Rate limit exceeded (429)" to API_ERROR, not RATE_LIMIT; the generate
catch block sends "request timed out" (claimed TIMEOUT) and
"invalid aspect value" (claimed VALIDATION_ERROR) to GENERATION_ERROR. -/
theorem c4_rule_table_counterexample :
    (categorizeError "Rate limit exceeded (429)" none).category = ErrorCategory.API_ERROR ∧
    ErrorCategory.API_ERROR ≠ ErrorCategory.RATE_LIMIT ∧
    categorizeGenerate "request timed out" = "GENERATION_ERROR" ∧
    categorizeGenerate "invalid aspect value" = "GENERATION_ERROR" ∧
    "GENERATION_ERROR" ≠ "TIMEOUT" ∧
    "GENERATION_ERROR" ≠ "VALIDATION_ERROR" := by
  refine ⟨by decide, by decide, by decide, by decide, by decide, by decide⟩

/-- C4 amended: both classifiers are total deterministic first-match-wins
rule tables over the failure text, with the tables actually present in the
source (case-sensitive matching; `categorizeError` without "authentication"
or "429" patterns and with VALIDATION before TIMEOUT; the generate catch
block with TIMEOUT before the 422 rule, category INVALID_REQUEST, and
default GENERATION_ERROR); "Invalid API key" is AUTH_ERROR under both and
"Rate limit exceeded (429)" is RATE_LIMIT under the generate classifier. -/
theorem c4_amended_classifier_tables :
    (∀ msg : String, categorizeGenerate msg = ruleFirstMatch generateRules "GENERATION_ERROR" msg) ∧
    (∀ msg : String, (categorizeError msg none).category =
        ruleFirstMatch categorizeErrorRules ErrorCategory.API_ERROR msg) ∧
    categorizeGenerate "Invalid API key" = "AUTH_ERROR" ∧
    (categorizeError "Invalid API key" none).category = ErrorCategory.AUTH_ERROR ∧
    categorizeGenerate "Rate limit exceeded (429)" = "RATE_LIMIT" ∧
    categorizeGenerate "blocked by safety filter" = "CONTENT_BLOCKED" ∧
    (categorizeError "blocked by safety filter" none).category = ErrorCategory.SAFETY_BLOCK ∧
    categorizeGenerate "mysterious failure" = "GENERATION_ERROR" ∧
    (categorizeError "mysterious failure" none).category = ErrorCategory.API_ERROR :=
  ⟨categorizeGenerate_eq_table, categorizeError_eq_table, by decide, by decide, by decide,
   by decide, by decide, by decide, by decide⟩

/-- C2 counterexample: "Service temporarily unavailable" matches the
claimed retryable-signal set (it is even in `withRetry`'s default list),
yet the upstream call's override drops that signal, so the invoker makes a
single attempt, sleeps never, and propagates the failure. -/
theorem c2_retry_set_counterexample :
    isRetryable "Service temporarily unavailable" DEFAULT_RETRY_OPTIONS.retryableErrors = true ∧
    isRetryable "Service temporarily unavailable" generateRetryOptions.retryableErrors = false ∧
    withRetry (fun _ => (⟨5, Except.error "Service temporarily unavailable"⟩ : AttemptOutcome Nat))
        generateRetryOptions =
      ⟨Except.error "Service temporarily unavailable", 1, [], 5⟩ :=
  ⟨by decide, by decide, rfl⟩

/-- C2 amended: at the upstream call site the retryable set is the override
["RATE_LIMIT", "429", "503", "502", "ECONNRESET", "ETIMEDOUT"] (the options
spread replaces the default list): a first-attempt failure is retried
exactly when its message contains one of these, case-insensitively, and a
non-matching failure propagates immediately with no sleep; at most 3
attempts are ever made. -/
theorem c2_amended_call_site_retry {α : Type} (fn : Nat → AttemptOutcome α)
    (msg : String) (d : Nat) (h : fn 0 = ⟨d, Except.error msg⟩) :
    (isRetryable msg generateRetryOptions.retryableErrors = false →
      withRetry fn generateRetryOptions = ⟨Except.error msg, 1, [], d⟩) ∧
    (isRetryable msg generateRetryOptions.retryableErrors = true →
      2 ≤ (withRetry fn generateRetryOptions).attemptsMade) ∧
    (withRetry fn generateRetryOptions).attemptsMade ≤ 3 := by
  refine ⟨fun hnr => withRetry_first_error fn generateRetryOptions msg d h hnr,
    fun hr => withRetry_first_error_retried fn generateRetryOptions msg d h hr (by decide),
    ?_⟩
  have hb := withRetryGo_attempt_upper fn generateRetryOptions.retryableErrors
    generateRetryOptions.maxDelayMs generateRetryOptions.backoffMultiplier
    generateRetryOptions.maxRetries 0 generateRetryOptions.initialDelayMs [] 0
  simpa [withRetry, generateRetryOptions] using hb

/-- Witness for C2 amended at a concrete non-retryable failure. -/
theorem c2_amended_witness :
    withRetry (fun _ => (⟨7, Except.error "boom"⟩ : AttemptOutcome Nat)) generateRetryOptions =
      ⟨Except.error "boom", 1, [], 7⟩ :=
  (c2_amended_call_site_retry (fun _ => ⟨7, Except.error "boom"⟩) "boom" 7 rfl).1 (by decide)

/-- C1 counterexample: with two retryable failures of 100s each and a 100s
success, the invoker spends 300s inside attempts — past the claimed shared
180s deadline — and still returns success instead of failing with Timeout:
the deadline is per attempt, not shared. -/
theorem c1_per_attempt_counterexample :
    (withRetry (fun k => withTimeout
        (⟨100000, if k < 2 then Except.error "Rate limit exceeded (429)" else Except.ok 42⟩ :
          AttemptOutcome Nat) DEFAULT_TIMEOUT_MS) generateRetryOptions).result = Except.ok 42 ∧
    (withRetry (fun k => withTimeout
        (⟨100000, if k < 2 then Except.error "Rate limit exceeded (429)" else Except.ok 42⟩ :
          AttemptOutcome Nat) DEFAULT_TIMEOUT_MS) generateRetryOptions).attemptMs = 300000 ∧
    DEFAULT_TIMEOUT_MS < (withRetry (fun k => withTimeout
        (⟨100000, if k < 2 then Except.error "Rate limit exceeded (429)" else Except.ok 42⟩ :
          AttemptOutcome Nat) DEFAULT_TIMEOUT_MS) generateRetryOptions).attemptMs :=
  ⟨rfl, rfl, by decide⟩

/-- C1 amended: the 180-second deadline is applied per attempt, not shared:
every attempt's effective duration is cut off at 180000ms, an attempt that
reaches the deadline fails the whole operation at once with the TIMEOUT
error (which matches no call-site retryable signal), and the total time in
attempts is bounded by attemptsMade × 180000ms with at most 3 attempts —
so it may reach 3 × 180s rather than 180s. -/
theorem c1_amended_per_attempt_deadline :
    (∀ (α : Type) (raw : Nat → AttemptOutcome α) (k : Nat),
      (withTimeout (raw k) DEFAULT_TIMEOUT_MS).durationMs ≤ DEFAULT_TIMEOUT_MS) ∧
    (∀ (α : Type) (raw : Nat → AttemptOutcome α),
      (withRetry (fun k => withTimeout (raw k) DEFAULT_TIMEOUT_MS)
          generateRetryOptions).attemptsMade ≤ 3 ∧
      (withRetry (fun k => withTimeout (raw k) DEFAULT_TIMEOUT_MS)
          generateRetryOptions).attemptMs ≤
        (withRetry (fun k => withTimeout (raw k) DEFAULT_TIMEOUT_MS)
            generateRetryOptions).attemptsMade * DEFAULT_TIMEOUT_MS) ∧
    (∀ (α : Type) (raw : Nat → AttemptOutcome α),
      DEFAULT_TIMEOUT_MS ≤ (raw 0).durationMs →
      withRetry (fun k => withTimeout (raw k) DEFAULT_TIMEOUT_MS) generateRetryOptions =
        ⟨Except.error "TIMEOUT: Operation timed out after 180000ms", 1, [],
          DEFAULT_TIMEOUT_MS⟩) := by
  have hcap : ∀ (α : Type) (raw : Nat → AttemptOutcome α) (k : Nat),
      (withTimeout (raw k) DEFAULT_TIMEOUT_MS).durationMs ≤ DEFAULT_TIMEOUT_MS := by
    intro α raw k
    unfold withTimeout
    split
    · omega
    · simp
  refine ⟨hcap, ?_, ?_⟩
  · intro α raw
    constructor
    · have hb := withRetryGo_attempt_upper (fun k => withTimeout (raw k) DEFAULT_TIMEOUT_MS)
        generateRetryOptions.retryableErrors generateRetryOptions.maxDelayMs
        generateRetryOptions.backoffMultiplier generateRetryOptions.maxRetries 0
        generateRetryOptions.initialDelayMs [] 0
      simpa [withRetry, generateRetryOptions] using hb
    · have hms := withRetryGo_attemptMs_le (fun k => withTimeout (raw k) DEFAULT_TIMEOUT_MS)
        generateRetryOptions.retryableErrors generateRetryOptions.maxDelayMs
        generateRetryOptions.backoffMultiplier DEFAULT_TIMEOUT_MS (hcap α raw)
        generateRetryOptions.maxRetries 0 generateRetryOptions.initialDelayMs [] 0
      simpa [withRetry] using hms
  · intro α raw hd
    have hfn : (fun k => withTimeout (raw k) DEFAULT_TIMEOUT_MS) 0 =
        ⟨DEFAULT_TIMEOUT_MS,
          Except.error "TIMEOUT: Operation timed out after 180000ms"⟩ := by
      simp only [withTimeout]
      rw [if_neg (by omega)]
      rfl
    exact withRetry_first_error _ generateRetryOptions _ DEFAULT_TIMEOUT_MS hfn (by decide)

/-- Witness for C1 amended: a 200-second first attempt is cut at 180s and
fails the whole operation with the TIMEOUT error at once. -/
theorem c1_amended_witness :
    withRetry (fun k => withTimeout ((fun _ => (⟨200000, Except.ok 0⟩ : AttemptOutcome Nat)) k)
        DEFAULT_TIMEOUT_MS) generateRetryOptions =
      ⟨Except.error "TIMEOUT: Operation timed out after 180000ms", 1, [], DEFAULT_TIMEOUT_MS⟩ :=
  c1_amended_per_attempt_deadline.2.2 Nat (fun _ => ⟨200000, Except.ok 0⟩) (by decide)

/-- C5: the backoff policy — sleeps happen only between attempts (always
exactly one fewer sleep than attempts), the k-th backoff delay is
min(1000·2^k, 30000) for any run with the code's initial delay, doubling
factor and cap, and in the concrete 429/429/success scenario the invoker
returns the success after sleeping 1000ms then 2000ms (≥ 3000ms total)
with each attempt inside the 180s per-attempt deadline. -/
theorem c5_backoff_policy :
    (∀ (α : Type) (fn : Nat → AttemptOutcome α) (opts : RetryOptions),
      (withRetry fn opts).attemptsMade = (withRetry fn opts).sleeps.length + 1) ∧
    (∀ (α : Type) (fn : Nat → AttemptOutcome α) (mr : Nat) (pats : List String),
      SleepsFrom 1000 2 30000 0 ((withRetry fn ⟨mr, 1000, 30000, 2, pats⟩).sleeps)) ∧
    (∀ k : Nat, delayAt 1000 2 30000 k = min (1000 * 2 ^ k) 30000) ∧
    ((withRetry (fun k => withTimeout
        (⟨500, if k < 2 then Except.error "Rate limit exceeded (429)" else Except.ok 7⟩ :
          AttemptOutcome Nat) DEFAULT_TIMEOUT_MS) generateRetryOptions).result = Except.ok 7 ∧
      (withRetry (fun k => withTimeout
        (⟨500, if k < 2 then Except.error "Rate limit exceeded (429)" else Except.ok 7⟩ :
          AttemptOutcome Nat) DEFAULT_TIMEOUT_MS) generateRetryOptions).sleeps = [1000, 2000] ∧
      1000 + 2000 ≤ sleepTotal (withRetry (fun k => withTimeout
        (⟨500, if k < 2 then Except.error "Rate limit exceeded (429)" else Except.ok 7⟩ :
          AttemptOutcome Nat) DEFAULT_TIMEOUT_MS) generateRetryOptions)) := by
  refine ⟨?_, ?_, delayAt_closed_form, rfl, rfl, by decide⟩
  · intro α fn opts
    exact withRetryGo_attempts_eq_sleeps fn opts.retryableErrors opts.maxDelayMs
      opts.backoffMultiplier opts.maxRetries 0 opts.initialDelayMs [] 0 rfl
  · intro α fn mr pats
    exact withRetryGo_sleepsFrom fn pats 1000 2 30000 mr 0 0

/-- C3 counterexample: a validation failure (aspect ratio "auto" with no
reference images) raises before the `try` block, so the call writes no
usage record at all — not exactly one. -/
theorem c3_validation_no_usage_counterexample :
    (generate ⟨⟨fun _ => false, fun _ => ⟨0, Except.error "unused"⟩⟩,
        fun _ _ => ⟨0, Except.error "unused"⟩, fun _ => Except.error "unused"⟩
      ⟨"a prompt", "/tmp/x.png", .nanoBanana, [], some "auto", "png", "1K", 1, false⟩).usage
        = [] ∧
    (generate ⟨⟨fun _ => false, fun _ => ⟨0, Except.error "unused"⟩⟩,
        fun _ _ => ⟨0, Except.error "unused"⟩, fun _ => Except.error "unused"⟩
      ⟨"a prompt", "/tmp/x.png", .nanoBanana, [], some "auto", "png", "1K", 1, false⟩).result
        = Except.error autoAspectError :=
  ⟨rfl, rfl⟩

/-- C3 amended: once validation passes, every call writes exactly one usage
record, successful exactly when the call returns a result; validation
failures write none. -/
theorem c3_amended_usage_once (env : GenEnv) (o : ImageGenerateOptions)
    (h : validateOptions o = none) :
    ∃ rec : UsageRecord, (generate env o).usage = [rec] ∧
      rec.success = exceptIsOk (generate env o).result := by
  unfold generate
  rw [h]
  rcases runGenerate env o with ⟨r, ws⟩
  cases r with
  | ok res => exact ⟨⟨modelName o.model, true, none⟩, rfl, rfl⟩
  | error e =>
    exact ⟨⟨modelName o.model, false, some (categorizeGenerate e ++ ": " ++ e)⟩, rfl, rfl⟩

/-- Witness for C3 amended at a concrete valid request. -/
theorem c3_amended_witness :
    ∃ rec : UsageRecord,
      (generate ⟨⟨fun _ => false, fun _ => ⟨0, Except.error "unused"⟩⟩,
          fun _ _ => ⟨0, Except.error "service down"⟩, fun _ => Except.error "unused"⟩
        ⟨"a prompt", "/tmp/x.png", .nanoBanana, [], none, "png", "1K", 1, false⟩).usage = [rec] ∧
      rec.success = exceptIsOk
        (generate ⟨⟨fun _ => false, fun _ => ⟨0, Except.error "unused"⟩⟩,
            fun _ _ => ⟨0, Except.error "service down"⟩, fun _ => Except.error "unused"⟩
          ⟨"a prompt", "/tmp/x.png", .nanoBanana, [], none, "png", "1K", 1, false⟩).result :=
  c3_amended_usage_once _ _ rfl

/-- C7: for a response with 3 images, `numImages = 3` and output path
"/tmp/x.png", the pipeline writes exactly /tmp/x.png, /tmp/x_2.png and
/tmp/x_3.png, in that order, each holding the bytes fetched from the
response URL of the same index (the `_n` suffix inserted before the
extension), and an empty or absent `images` field fails the call. -/
theorem c7_materializer_roundtrip :
    (∀ (re : RefEnv) (f : String → Except String (List Nat)) (u1 u2 u3 : String)
        (b1 b2 b3 : List Nat) (d : Nat),
      d < DEFAULT_TIMEOUT_MS → f u1 = .ok b1 → f u2 = .ok b2 → f u3 = .ok b3 →
      generate ⟨re, fun _ _ => ⟨d, .ok ⟨some [⟨u1⟩, ⟨u2⟩, ⟨u3⟩], none⟩⟩, f⟩
          ⟨"a red cube", "/tmp/x.png", .nanoBanana, [], none, "png", "1K", 3, false⟩ =
        ⟨.ok ⟨"/tmp/x.png", .nanoBanana⟩,
         [("/tmp/x.png", b1), ("/tmp/x_2.png", b2), ("/tmp/x_3.png", b3)],
         [⟨"nano-banana", true, none⟩]⟩) ∧
    (∀ (re : RefEnv) (f : String → Except String (List Nat)) (d : Nat)
        (imgs : Option (List FalImage)),
      d < DEFAULT_TIMEOUT_MS → (imgs = none ∨ imgs = some []) →
      (generate ⟨re, fun _ _ => ⟨d, .ok ⟨imgs, none⟩⟩, f⟩
          ⟨"a red cube", "/tmp/x.png", .nanoBanana, [], none, "png", "1K", 3, false⟩).result =
        .error "GENERATION_ERROR: No image data found in response") := by
  constructor
  · intro re f u1 u2 u3 b1 b2 b3 d hd h1 h2 h3
    have htr : withRetry (fun k => withTimeout
        (⟨d, Except.ok (⟨some [⟨u1⟩, ⟨u2⟩, ⟨u3⟩], none⟩ : FalGenerateResponse)⟩ :
          AttemptOutcome FalGenerateResponse) DEFAULT_TIMEOUT_MS) generateRetryOptions =
        ⟨Except.ok ⟨some [⟨u1⟩, ⟨u2⟩, ⟨u3⟩], none⟩, 1, [], d⟩ :=
      withRetry_first_ok _ _ _ d (by simp [withTimeout, hd])
    simp only [generate, runGenerate]
    rw [show validateOptions
        ⟨"a red cube", "/tmp/x.png", .nanoBanana, [], none, "png", "1K", 3, false⟩ = none
      from rfl]
    simp only []
    rw [htr]
    simp only [downloadSeq, h1, h2, h3, List.enum]
    rw [show numberedSiblingPath "/tmp/x.png" 2 = "/tmp/x_2.png" from rfl,
      show numberedSiblingPath "/tmp/x.png" 3 = "/tmp/x_3.png" from rfl]
    simp [downloadSeq, h1, h2, h3, modelName]
  · intro re f d imgs hd himgs
    have htr : withRetry (fun k => withTimeout
        (⟨d, Except.ok (⟨imgs, none⟩ : FalGenerateResponse)⟩ :
          AttemptOutcome FalGenerateResponse) DEFAULT_TIMEOUT_MS) generateRetryOptions =
        ⟨Except.ok ⟨imgs, none⟩, 1, [], d⟩ :=
      withRetry_first_ok _ _ _ d (by simp [withTimeout, hd])
    simp only [generate, runGenerate]
    rw [show validateOptions
        ⟨"a red cube", "/tmp/x.png", .nanoBanana, [], none, "png", "1K", 3, false⟩ = none
      from rfl]
    simp only []
    rw [htr]
    rcases himgs with h | h <;> rw [h] <;> rfl

/-- Witness for C7 at a concrete environment and byte contents. -/
theorem c7_materializer_witness :
    generate ⟨⟨fun _ => false, fun _ => ⟨0, Except.error "unused"⟩⟩,
        fun _ _ => ⟨5, .ok ⟨some [⟨"ua"⟩, ⟨"ub"⟩, ⟨"uc"⟩], none⟩⟩,
        fun u => if u = "ua" then .ok [1] else if u = "ub" then .ok [2] else .ok [3]⟩
      ⟨"a red cube", "/tmp/x.png", .nanoBanana, [], none, "png", "1K", 3, false⟩ =
      ⟨.ok ⟨"/tmp/x.png", .nanoBanana⟩,
       [("/tmp/x.png", [1]), ("/tmp/x_2.png", [2]), ("/tmp/x_3.png", [3])],
       [⟨"nano-banana", true, none⟩]⟩ ∧
    (generate ⟨⟨fun _ => false, fun _ => ⟨0, Except.error "unused"⟩⟩,
        fun _ _ => ⟨5, .ok ⟨some [], none⟩⟩, fun _ => .ok []⟩
      ⟨"a red cube", "/tmp/x.png", .nanoBanana, [], none, "png", "1K", 3, false⟩).result =
      .error "GENERATION_ERROR: No image data found in response" :=
  ⟨c7_materializer_roundtrip.1 _ _ "ua" "ub" "uc" [1] [2] [3] 5 (by decide) rfl rfl rfl,
   c7_materializer_roundtrip.2 _ _ 5 (some []) (by decide) (Or.inr rfl)⟩

/-- C8: reference materialization is sequential and index-stable — a
successful run returns one URL per input in input order, URL-classified
inputs pass through unchanged with no upload — and a single https
reference image routes the request to the fast model's edit endpoint,
making the upstream behaviour at other endpoints irrelevant. -/
theorem c8_reference_processing :
    (∀ (env : RefEnv) (l : List String) (ps : List (String × Bool)),
      processReferenceImages env l = .ok ps →
      ps.length = l.length ∧
        ∀ (j : Nat) (x : String), l[j]? = some x → getImageInputType x = .url →
          ps[j]? = some (x, false)) ∧
    getModelId .nanoBanana true = "fal-ai/nano-banana/edit" ∧
    (∀ env : RefEnv, processReferenceImages env ["https://x/y.jpg"] =
      .ok [("https://x/y.jpg", false)]) ∧
    (∀ (env1 env2 : GenEnv) (o : ImageGenerateOptions),
      env1.refEnv = env2.refEnv → env1.fetch = env2.fetch →
      (∀ k, env1.attempts "fal-ai/nano-banana/edit" k =
        env2.attempts "fal-ai/nano-banana/edit" k) →
      o.referenceImages = ["https://x/y.jpg"] → o.model = .nanoBanana →
      generate env1 o = generate env2 o) := by
  refine ⟨?_, rfl, fun env => rfl, ?_⟩
  · intro env l ps h
    cases l with
    | nil =>
      unfold processReferenceImages at h
      simp at h
      subst h
      simp
    | cons a t =>
      unfold processReferenceImages at h
      rw [if_neg (by simp)] at h
      exact processRefsAux_spec env (a :: t) 0 ps h
  · intro env1 env2 o h1 h2 h3 hrefs hmodel
    obtain ⟨re1, at1, f1⟩ := env1
    obtain ⟨re2, at2, f2⟩ := env2
    dsimp only at h1 h2 h3
    subst h1
    subst h2
    have hid : getModelId o.model (!o.referenceImages.isEmpty) = "fal-ai/nano-banana/edit" := by
      rw [hrefs, hmodel]
      rfl
    have hfu : (fun k => withTimeout (at1 "fal-ai/nano-banana/edit" k) DEFAULT_TIMEOUT_MS) =
        (fun k => withTimeout (at2 "fal-ai/nano-banana/edit" k) DEFAULT_TIMEOUT_MS) :=
      funext fun k => by rw [h3 k]
    simp only [generate, runGenerate]
    rw [hid, hfu]

/-- Witness for C8 at a concrete single-URL reference list. -/
theorem c8_reference_witness :
    ([("https://x/y.jpg", false)] : List (String × Bool)).length =
      (["https://x/y.jpg"] : List String).length ∧
    ([("https://x/y.jpg", false)] : List (String × Bool))[0]? =
      some ("https://x/y.jpg", false) ∧
    generate ⟨⟨fun _ => false, fun _ => ⟨0, Except.error "u"⟩⟩,
        (fun id _ => if id = "fal-ai/nano-banana" then ⟨0, Except.error "wrong endpoint"⟩
          else ⟨3, Except.ok ⟨none, none⟩⟩),
        fun _ => Except.ok []⟩
      ⟨"add a hat", "/tmp/h.png", .nanoBanana, ["https://x/y.jpg"], none, "png", "1K", 1, false⟩ =
    generate ⟨⟨fun _ => false, fun _ => ⟨0, Except.error "u"⟩⟩,
        (fun _ _ => ⟨3, Except.ok ⟨none, none⟩⟩),
        fun _ => Except.ok []⟩
      ⟨"add a hat", "/tmp/h.png", .nanoBanana, ["https://x/y.jpg"], none, "png", "1K", 1, false⟩ :=
  ⟨(c8_reference_processing.1 ⟨fun _ => false, fun _ => ⟨0, Except.error "u"⟩⟩
      ["https://x/y.jpg"] [("https://x/y.jpg", false)] rfl).1,
   (c8_reference_processing.1 ⟨fun _ => false, fun _ => ⟨0, Except.error "u"⟩⟩
      ["https://x/y.jpg"] [("https://x/y.jpg", false)] rfl).2 0 "https://x/y.jpg" rfl rfl,
   c8_reference_processing.2.2.2 _ _ _ rfl rfl (fun _ => rfl) rfl rfl⟩

/-- Downloading URL/bytes pairs that all fetch successfully to one fixed
path writes that path once per pair, in order. -/
theorem downloadSeq_pairs (f : String → Except String (List Nat)) (p : String) :
    ∀ (ib : List (String × List Nat)), (∀ pr ∈ ib, f pr.1 = .ok pr.2) →
    downloadSeq f (ib.map (fun pr => (pr.1, p))) = (.ok (), ib.map (fun pr => (p, pr.2))) := by
  intro ib
  induction ib with
  | nil => intro _; simp [downloadSeq]
  | cons pr rest ih =>
    intro hf
    have h1 : f pr.1 = .ok pr.2 := hf pr (by simp)
    simp only [List.map_cons, downloadSeq, h1]
    rw [ih (fun q hq => hf q (by simp [hq]))]

/-- C10: when the output path has no dot-extension, every numbered sibling
path equals the output path itself, so with `numImages > 1` and k > 1
response images all k downloads are written to the single output path in
order, each overwriting the previous one; the file ends with the last
image's bytes and no other path is written. -/
theorem c10_no_extension_overwrite (p : String) (re : RefEnv)
    (f : String → Except String (List Nat)) (d n : Nat)
    (imgBytes : List (String × List Nat))
    (hExt : hasDotExt p = false) (hd : d < DEFAULT_TIMEOUT_MS) (hn : 1 < n)
    (hlen : 1 < imgBytes.length) (hf : ∀ pr ∈ imgBytes, f pr.1 = .ok pr.2) :
    (generate ⟨re, fun _ _ => ⟨d, .ok ⟨some (imgBytes.map (fun pr => ⟨pr.1⟩)), none⟩⟩, f⟩
        ⟨"a prompt", p, .nanoBanana, [], none, "png", "1K", n, false⟩).result =
      .ok ⟨p, .nanoBanana⟩ ∧
    (generate ⟨re, fun _ _ => ⟨d, .ok ⟨some (imgBytes.map (fun pr => ⟨pr.1⟩)), none⟩⟩, f⟩
        ⟨"a prompt", p, .nanoBanana, [], none, "png", "1K", n, false⟩).writes =
      imgBytes.map (fun pr => (p, pr.2)) ∧
    finalFileContents
      ((generate ⟨re, fun _ _ => ⟨d, .ok ⟨some (imgBytes.map (fun pr => ⟨pr.1⟩)), none⟩⟩, f⟩
        ⟨"a prompt", p, .nanoBanana, [], none, "png", "1K", n, false⟩).writes) p =
      (imgBytes.map Prod.snd).getLast? ∧
    ((generate ⟨re, fun _ _ => ⟨d, .ok ⟨some (imgBytes.map (fun pr => ⟨pr.1⟩)), none⟩⟩, f⟩
        ⟨"a prompt", p, .nanoBanana, [], none, "png", "1K", n, false⟩).writes).map Prod.fst =
      List.replicate imgBytes.length p := by
  cases imgBytes with
  | nil => simp at hlen
  | cons pr0 rest =>
    have htr : withRetry (fun k => withTimeout
        (⟨d, Except.ok (⟨some ((pr0 :: rest).map (fun pr => ⟨pr.1⟩)), none⟩ :
          FalGenerateResponse)⟩ : AttemptOutcome FalGenerateResponse)
        DEFAULT_TIMEOUT_MS) generateRetryOptions =
        ⟨Except.ok ⟨some ((pr0 :: rest).map (fun pr => ⟨pr.1⟩)), none⟩, 1, [], d⟩ :=
      withRetry_first_ok _ _ _ d (by simp [withTimeout, hd])
    have hwrites : (generate ⟨re, fun _ _ =>
          ⟨d, .ok ⟨some ((pr0 :: rest).map (fun pr => ⟨pr.1⟩)), none⟩⟩, f⟩
        ⟨"a prompt", p, .nanoBanana, [], none, "png", "1K", n, false⟩) =
        ⟨.ok ⟨p, .nanoBanana⟩, (pr0 :: rest).map (fun pr => (p, pr.2)),
          [⟨"nano-banana", true, none⟩]⟩ := by
      simp only [generate, runGenerate]
      rw [show validateOptions
          ⟨"a prompt", p, .nanoBanana, [], none, "png", "1K", n, false⟩ = none from rfl]
      rw [show (if (!(([] : List String).isEmpty)) = true
          then processReferenceImages re [] else Except.ok []) = Except.ok [] from rfl]
      rw [htr]
      simp only [List.map_cons, if_pos hn, numberedSiblingPath_noExt p hExt, List.enum]
      rw [enumFrom_map_snd (fun img => (FalImage.url img, p)) 0 (rest.map (fun pr => ⟨pr.1⟩))]
      simp only [List.map_map]
      have hplan : ((pr0.1, p) :: rest.map ((fun img => (FalImage.url img, p)) ∘
            (fun pr => (⟨pr.1⟩ : FalImage)))) =
          (pr0 :: rest).map (fun pr => (pr.1, p)) := by
        simp [Function.comp]
      rw [hplan, downloadSeq_pairs f p (pr0 :: rest) hf]
      simp [modelName]
    rw [hwrites]
    refine ⟨rfl, rfl, ?_, ?_⟩
    · have hmm : (pr0 :: rest).map (fun pr => (p, pr.2)) =
          ((pr0 :: rest).map Prod.snd).map (fun b => (p, b)) := by
        simp [List.map_map, Function.comp]
      rw [hmm, finalFileContents_const p]
    · have hrep : ∀ (l : List (String × List Nat)),
          (l.map (fun pr => (p, pr.2))).map Prod.fst = List.replicate l.length p := by
        intro l
        induction l with
        | nil => simp
        | cons q t ih => simp [ih, List.replicate]
      exact hrep (pr0 :: rest)

/-- Witness for C10: two images written to the extensionless path
"/tmp/out"; the file ends with the second image's bytes. -/
theorem c10_no_extension_witness :
    (generate ⟨⟨fun _ => false, fun _ => ⟨0, Except.error "u"⟩⟩,
        fun _ _ => ⟨5, .ok ⟨some ([("u1", [1]), ("u2", [2])].map (fun pr => ⟨pr.1⟩)), none⟩⟩,
        fun u => if u = "u1" then .ok [1] else .ok [2]⟩
      ⟨"a prompt", "/tmp/out", .nanoBanana, [], none, "png", "1K", 2, false⟩).result =
      .ok ⟨"/tmp/out", .nanoBanana⟩ ∧
    (generate ⟨⟨fun _ => false, fun _ => ⟨0, Except.error "u"⟩⟩,
        fun _ _ => ⟨5, .ok ⟨some ([("u1", [1]), ("u2", [2])].map (fun pr => ⟨pr.1⟩)), none⟩⟩,
        fun u => if u = "u1" then .ok [1] else .ok [2]⟩
      ⟨"a prompt", "/tmp/out", .nanoBanana, [], none, "png", "1K", 2, false⟩).writes =
      [("u1", [1]), ("u2", [2])].map (fun pr => ("/tmp/out", pr.2)) ∧
    finalFileContents
      ((generate ⟨⟨fun _ => false, fun _ => ⟨0, Except.error "u"⟩⟩,
          fun _ _ => ⟨5, .ok ⟨some ([("u1", [1]), ("u2", [2])].map (fun pr => ⟨pr.1⟩)), none⟩⟩,
          fun u => if u = "u1" then .ok [1] else .ok [2]⟩
        ⟨"a prompt", "/tmp/out", .nanoBanana, [], none, "png", "1K", 2, false⟩).writes)
      "/tmp/out" = ([("u1", [1]), ("u2", [2])].map Prod.snd).getLast? ∧
    ((generate ⟨⟨fun _ => false, fun _ => ⟨0, Except.error "u"⟩⟩,
        fun _ _ => ⟨5, .ok ⟨some ([("u1", [1]), ("u2", [2])].map (fun pr => ⟨pr.1⟩)), none⟩⟩,
        fun u => if u = "u1" then .ok [1] else .ok [2]⟩
      ⟨"a prompt", "/tmp/out", .nanoBanana, [], none, "png", "1K", 2, false⟩).writes).map
      Prod.fst = List.replicate ([("u1", [1]), ("u2", [2])] :
        List (String × List Nat)).length "/tmp/out" :=
  c10_no_extension_overwrite "/tmp/out" ⟨fun _ => false, fun _ => ⟨0, Except.error "u"⟩⟩
    (fun u => if u = "u1" then .ok [1] else .ok [2]) 5 2 [("u1", [1]), ("u2", [2])]
    (by decide) (by decide) (by decide) (by decide)
    (by intro pr hpr
        rcases List.mem_cons.mp hpr with h | h
        · subst h; rfl
        · rcases List.mem_cons.mp h with h2 | h2
          · subst h2; rfl
          · simp at h2)

/-- C6: request validation runs before any environment interaction and
short-circuits in order — the "auto"/no-references rejection first (its
message naming the legal alternatives), then membership in the extended
aspect-ratio set, then the per-model reference-image ceiling (message
citing the ceiling, so 4 references with the fast model always fail and,
once the aspect stage passes, cite "3"), then the fast-model resolution
restriction. -/
theorem c6_validation_order :
    (∀ (env : GenEnv) (o : ImageGenerateOptions) (e : String),
      validateOptions o = some e → generate env o = ⟨Except.error e, [], []⟩) ∧
    (∀ o : ImageGenerateOptions, o.aspectRat = some "auto" → o.referenceImages = [] →
      validateOptions o = some autoAspectError) ∧
    (∀ (o : ImageGenerateOptions) (ar : String), o.aspectRat = some ar → ar ≠ "" →
      ASPECT_RATIOS_WITH_AUTO.contains ar = false →
      validateOptions o = some (invalidAspectError ar)) ∧
    (∀ o : ImageGenerateOptions, aspectCheck o = none →
      MAX_REFERENCE_IMAGES o.model < o.referenceImages.length →
      validateOptions o = some (maxRefError o.model) ∧
      strIncludes (maxRefError o.model) (toString (MAX_REFERENCE_IMAGES o.model)) = true) ∧
    (∀ o : ImageGenerateOptions, o.model = .nanoBanana → o.referenceImages.length = 4 →
      (∃ e, validateOptions o = some e) ∧
      (aspectCheck o = none →
        validateOptions o = some (maxRefError .nanoBanana) ∧
        strIncludes (maxRefError .nanoBanana) "3" = true)) ∧
    (∀ o : ImageGenerateOptions, aspectCheck o = none →
      o.referenceImages.length ≤ MAX_REFERENCE_IMAGES o.model →
      o.model = .nanoBanana → o.resolution ≠ "1K" →
      validateOptions o = some resolutionError) := by
  refine ⟨?_, ?_, ?_, ?_, ?_, ?_⟩
  · intro env o e h
    simp [generate, h]
  · intro o h1 h2
    have hv : aspectCheck o = some autoAspectError := by
      unfold aspectCheck
      rw [h1, h2]
      rfl
    simp [validateOptions, hv]
  · intro o ar h1 hne hnc
    have hna : ar ≠ "auto" := by
      intro heq
      rw [heq] at hnc
      exact absurd hnc (by decide)
    have hmem : ar ∉ ASPECT_RATIOS_WITH_AUTO := by
      intro hm
      rw [← List.elem_iff] at hm
      have helem : ASPECT_RATIOS_WITH_AUTO.elem ar = false := hnc
      rw [hm] at helem
      cases helem
    have hv : aspectCheck o = some (invalidAspectError ar) := by
      unfold aspectCheck
      rw [h1]
      simp [hne, hna, hnc, hmem]
    simp [validateOptions, hv]
  · intro o h1 h2
    refine ⟨by simp [validateOptions, h1, h2], ?_⟩
    cases hm : o.model <;> decide
  · intro o hm h4
    constructor
    · rcases ha : aspectCheck o with _ | e
      · exact ⟨maxRefError o.model,
          by simp [validateOptions, ha, hm, h4, MAX_REFERENCE_IMAGES]⟩
      · exact ⟨e, by simp [validateOptions, ha]⟩
    · intro ha
      refine ⟨by simp [validateOptions, ha, hm, h4, MAX_REFERENCE_IMAGES], by decide⟩
  · intro o h1 hlen hm hres
    have hnotlt : ¬ (MAX_REFERENCE_IMAGES o.model < o.referenceImages.length) := by omega
    rw [hm] at hnotlt
    simp [validateOptions, h1, hnotlt, hm, hres]

/-- Witness for C6 at concrete requests exercising each validation stage. -/
theorem c6_validation_witness :
    generate ⟨⟨fun _ => false, fun _ => ⟨0, Except.error "x"⟩⟩,
        fun _ _ => ⟨0, Except.error "x"⟩, fun _ => Except.error "x"⟩
      ⟨"p", "/tmp/o.png", .nanoBanana, ["r1", "r2", "r3", "r4"], none, "png", "1K", 1, false⟩ =
      ⟨Except.error (maxRefError .nanoBanana), [], []⟩ ∧
    validateOptions ⟨"p", "o.png", .nanoBanana, [], some "auto", "png", "1K", 1, false⟩ =
      some autoAspectError ∧
    validateOptions ⟨"p", "o.png", .nanoBanana, [], some "7:5", "png", "1K", 1, false⟩ =
      some (invalidAspectError "7:5") ∧
    validateOptions
        ⟨"p", "o.png", .nanoBanana, ["r1", "r2", "r3", "r4"], none, "png", "1K", 1, false⟩ =
      some (maxRefError .nanoBanana) ∧
    strIncludes (maxRefError .nanoBanana) "3" = true ∧
    validateOptions ⟨"p", "o.png", .nanoBanana, [], none, "png", "4K", 1, false⟩ =
      some resolutionError :=
  ⟨c6_validation_order.1 _ _ _ rfl,
   c6_validation_order.2.1 _ rfl rfl,
   c6_validation_order.2.2.1 _ "7:5" rfl (by decide) (by decide),
   (c6_validation_order.2.2.2.1
      ⟨"p", "o.png", .nanoBanana, ["r1", "r2", "r3", "r4"], none, "png", "1K", 1, false⟩
      rfl (by decide)).1,
   (c6_validation_order.2.2.2.1
      ⟨"p", "o.png", .nanoBanana, ["r1", "r2", "r3", "r4"], none, "png", "1K", 1, false⟩
      rfl (by decide)).2,
   c6_validation_order.2.2.2.2.2
      ⟨"p", "o.png", .nanoBanana, [], none, "png", "4K", 1, false⟩
      rfl (by decide) rfl (by decide)⟩
